import Mathlib

/-
  Verification development for the ColdCaseData ingest pipeline
  (src/server/ingest/fetch.py, src/server/ingest/parse.py,
   src/server/ingest/pending.py, src/server/db/models.py).

  The Python code is shallowly embedded: pure fragments become Lean
  functions over lists of characters / records; the network, the file
  system, the OCR engine and the regex matcher are passed in as explicit
  oracle arguments (they are external collaborators of the pipeline);
  Python exceptions become Except / Option results; the SQL store
  becomes a list of rows keyed by the primary key.
-/

set_option autoImplicit false

namespace ColdCaseData

/-! ## Character / string helpers (Python string semantics) -/

/-- Is the first list a prefix of the second (by character equality)? -/
def isPrefixChars : List Char → List Char → Bool
  | [], _ => true
  | _ :: _, [] => false
  | p :: ps, c :: cs => p == c && isPrefixChars ps cs

/-- Does the pattern occur as a contiguous substring?  Models the Python
membership test on strings. -/
def hasSubChars (p : List Char) : List Char → Bool
  | [] => isPrefixChars p []
  | c :: cs => isPrefixChars p (c :: cs) || hasSubChars p cs

/-- Python: pat in s. -/
def strHasSub (s pat : String) : Bool :=
  hasSubChars pat.data s.data

/-- Python: s.lower() (ASCII case folding, enough for the data here). -/
def lowerStr (s : String) : String :=
  ⟨s.data.map Char.toLower⟩

/-- Python: s.endswith(suf). -/
def strEndsWith (s suf : String) : Bool :=
  isPrefixChars suf.data.reverse s.data.reverse

/-- Split a character list on a separator character; models Python
str.split(sep) for a one-character separator (empty groups kept). -/
def splitOnChar (sep : Char) : List Char → List (List Char)
  | [] => [[]]
  | a :: as =>
    let r := splitOnChar sep as
    if a == sep then
      [] :: r
    else
      match r with
      | [] => [[a]]
      | g :: gs => (a :: g) :: gs

/-- The last "/"-separated segment of a URL (Python: url.split("/")[-1]). -/
def lastSegment (s : String) : String :=
  ⟨(splitOnChar '/' s.data).getLastD []⟩

/-- Replace every non-overlapping occurrence of the non-empty pattern
pat by rep, scanning left to right; the fuel argument (any bound on the
number of characters consumed, each step consumes at least one) keeps
the recursion structural. -/
def replaceGo (pat rep : List Char) : Nat → List Char → List Char
  | _, [] => []
  | 0, s => s
  | fuel + 1, c :: cs =>
    if isPrefixChars pat (c :: cs) then
      rep ++ replaceGo pat rep fuel (cs.drop (pat.length - 1))
    else
      c :: replaceGo pat rep fuel cs

/-- Python: s.replace(pat, rep).  The code never calls replace with an
empty pattern, so that case just returns the string unchanged. -/
def pyReplace (s pat rep : String) : String :=
  match pat.data with
  | [] => s
  | p :: ps => ⟨replaceGo (p :: ps) rep.data s.data.length s.data⟩

/-- Python: s.strip() (whitespace at both ends removed). -/
def pyStrip (s : String) : String :=
  ⟨((s.data.dropWhile Char.isWhitespace).reverse.dropWhile Char.isWhitespace).reverse⟩

/-- One step of Python str.title(): a letter is uppercased when the
previous character is not a letter, lowercased otherwise. -/
def titleChars : Bool → List Char → List Char
  | _, [] => []
  | prevAlpha, c :: cs =>
    (if c.isAlpha then (if prevAlpha then c.toLower else c.toUpper) else c)
      :: titleChars c.isAlpha cs

/-- Python: s.title(). -/
def pyTitle (s : String) : String :=
  ⟨titleChars false s.data⟩

/-- Numeric value of a list of decimal digits. -/
def natOfDigits (cs : List Char) : Nat :=
  cs.foldl (fun a c => a * 10 + (c.toNat - 48)) 0

/-- Python: int(s) for the year token of a file name.  Such a token comes
from splitting on "-", so it never carries a sign; int() strips
whitespace and then requires a non-empty run of digits. -/
def pyNat? (s : String) : Option Nat :=
  let t := (pyStrip s).data
  if t ≠ [] ∧ t.all Char.isDigit then some (natOfDigits t) else none

/-- Split a character list at every character satisfying p (empty
groups kept), like Python re.split on single characters. -/
def splitPred (p : Char → Bool) : List Char → List (List Char)
  | [] => [[]]
  | c :: cs =>
    let r := splitPred p cs
    if p c then
      [] :: r
    else
      match r with
      | [] => [[c]]
      | g :: gs => (c :: g) :: gs

/-- Join words with single spaces. -/
def joinSpace : List (List Char) → List Char
  | [] => []
  | [w] => w
  | w :: ws => w ++ ' ' :: joinSpace ws

/-- Python: re.sub of whitespace runs by one space, then strip; models
the synopsis normalization. -/
def collapseWs (s : String) : String :=
  ⟨joinSpace ((splitPred Char.isWhitespace s.data).filter (fun w => w ≠ []))⟩

/-! ## Dates (datetime.date and strptime with format %m/%d/%Y) -/

structure PyDate where
  year : Nat
  month : Nat
  day : Nat
deriving DecidableEq, Repr

def isLeap (y : Nat) : Bool :=
  (y % 4 == 0 && y % 100 != 0) || y % 400 == 0

def daysInMonth (y m : Nat) : Nat :=
  if m == 2 then (if isLeap y then 29 else 28)
  else if m == 4 || m == 6 || m == 9 || m == 11 then 30
  else 31

/-- Python: datetime.strptime(s, "%m/%d/%Y").date().  CPython matches
one or two digits for the month and the day, exactly four digits for
the year, and validates the calendar date; returns none where Python
raises ValueError. -/
def pyStrptimeMDY (s : String) : Option PyDate :=
  match splitOnChar '/' s.data with
  | [ms, ds, ys] =>
    if ms ≠ [] ∧ ms.all Char.isDigit ∧ ms.length ≤ 2
        ∧ ds ≠ [] ∧ ds.all Char.isDigit ∧ ds.length ≤ 2
        ∧ ys.length = 4 ∧ ys.all Char.isDigit then
      let m := natOfDigits ms
      let d := natOfDigits ds
      let y := natOfDigits ys
      if 1 ≤ m ∧ m ≤ 12 ∧ 1 ≤ d ∧ d ≤ daysInMonth y m ∧ 1 ≤ y then
        some ⟨y, m, d⟩
      else none
    else none
  | _ => none

/-! ## Data model

ColdCase mirrors src/server/db/models.py: case_number is the primary
key; incident_date and location are NOT NULL; every other column is
nullable.  CaseRecord mirrors the TypedDict used for queue entries. -/

structure ColdCase where
  case_number : String
  victim : Option String
  age : Option Int
  sex : Option String
  race : Option String
  incident_date : PyDate
  location : String
  synopsis : Option String
  status : Option String
deriving DecidableEq, Repr

structure CaseRecord where
  url : String
  name : String
  source_status : String
deriving DecidableEq, Repr

/-- Errors src/server/ingest/fetch.py findRecord can raise: an
IndexError from yearName[1] and sqlalchemy MultipleResultsFound from
scalar_one_or_none. -/
inductive DBError
  | indexError
  | multipleResults
deriving DecidableEq, Repr

instance {ε α : Type} [DecidableEq ε] [DecidableEq α] :
    DecidableEq (Except ε α)
  | .ok a, .ok b =>
    if h : a = b then .isTrue (by rw [h])
    else .isFalse (by intro he; cases he; exact h rfl)
  | .ok _, .error _ => .isFalse (by intro he; cases he)
  | .error _, .ok _ => .isFalse (by intro he; cases he)
  | .error a, .error b =>
    if h : a = b then .isTrue (by rw [h])
    else .isFalse (by intro he; cases he; exact h rfl)

/-! ## fetch.py: findRecord -/

/-- The year windowing of findRecord (fetch.py lines 33-38), kept with
the source's degenerate conditional (both arms of the inner branch add
2000); none models the early return (False, "N/A"). -/
def windowYear (y : Nat) : Option Nat :=
  if y < 70 then some (if y < 10 then 2000 + y else 2000 + y)
  else if 70 ≤ y ∧ y ≤ 99 then some (1900 + y)
  else none

/-- The WHERE clause of findRecord's query: victim ILIKE the surname
fragment (case-insensitive substring; an SQL NULL victim never matches)
and the year of incident_date equals the derived year. -/
def matchesQuery (lastName : String) (year : Nat) (c : ColdCase) : Bool :=
  (match c.victim with
   | none => false
   | some v => strHasSub (lowerStr v) (lowerStr lastName))
  && c.incident_date.year == year

/-- fetch.py line 25: pdfName.split("-"). -/
def yearName (pdfName : String) : List String :=
  (splitOnChar '-' pdfName.data).map (fun cs => (⟨cs⟩ : String))

/-- fetch.py findRecord (lines 23-56).  The db argument is the
cold_cases table.  scalar_one_or_none gives none on zero rows, the
selected status on one row, and raises on two or more rows; a NULL
status on the single matching row is indistinguishable from "no row"
in the Python code (result is None). -/
def findRecord (pdfName : String) (db : List ColdCase) :
    Except DBError (Bool × String) :=
  let yn := yearName pdfName
  match pyNat? (yn.headD "") with
  | none => .ok (false, "N/A")
  | some y =>
    match windowYear y with
    | none => .ok (false, "N/A")
    | some year =>
      match yn.drop 1 with
      | [] => .error .indexError
      | ln :: _ =>
        let lastName := pyReplace ln ".pdf" ""
        match db.filter (matchesQuery lastName year) with
        | [] => .ok (false, "N/A")
        | [c] =>
          match c.status with
          | none => .ok (false, "N/A")
          | some s => .ok (true, s)
        | _ :: _ :: _ => .error .multipleResults

/-! ## fetch.py: getURLs -/

/-- The status category a URL implies: substring "solved", else
substring "warrant", else "cold" (the order of the branches in getURLs,
also the spec's classification rule). -/
def statusCategory (pdfUrl : String) : String :=
  if strHasSub pdfUrl "solved" then "solved"
  else if strHasSub pdfUrl "warrant" then "warrant"
  else "cold"

/-- The per-candidate decision of getURLs (fetch.py lines 102-122):
given the detector's (exists, status) answer, either the source_status
of the emitted lead or none when no lead is emitted. -/
def emitDecision (pdfUrl : String) (ex : Bool) (st : String) : Option String :=
  if strHasSub pdfUrl "solved" && (!ex || (ex && st != "solved")) then
    some "solved"
  else if strHasSub pdfUrl "warrant" && (!ex || (ex && st != "warrant")) then
    some "warrant"
  else if !ex then
    some "cold"
  else
    none

/-- Python dict insertion: overwriting an existing key keeps its
position, a new key is appended. -/
def dictInsert : List (String × CaseRecord) → String → CaseRecord →
    List (String × CaseRecord)
  | [], k, v => [(k, v)]
  | (k', v') :: rest, k, v =>
    if k' = k then (k, v) :: rest
    else (k', v') :: dictInsert rest k v

/-- One iteration of the scanning loop of getURLs (fetch.py lines
89-122) on the cases dict acc: build the absolute URL, take the last
path segment as the document id, and for a ".pdf" link consult
findRecord and insert the lead emitDecision asks for. -/
def processLink (db : List ColdCase) (acc : List (String × CaseRecord))
    (href : String) : Except DBError (List (String × CaseRecord)) :=
  let pdfUrl := "https://www.denvergov.org" ++ href
  let pdfName := lastSegment pdfUrl
  if strEndsWith (lowerStr pdfUrl) ".pdf" then
    match findRecord pdfName db with
    | .error e => .error e
    | .ok (ex, st) =>
      match emitDecision pdfUrl ex st with
      | some cat => .ok (dictInsert acc pdfName ⟨pdfUrl, pdfName, cat⟩)
      | none => .ok acc
  else .ok acc

/-- The scanning loop of getURLs (fetch.py lines 89-123): links are the
href attributes of the anchor tags found on the listing page. -/
def getURLsGo (db : List ColdCase) :
    List String → List (String × CaseRecord) →
    Except DBError (List (String × CaseRecord))
  | [], acc => .ok acc
  | href :: rest, acc =>
    match processLink db acc href with
    | .error e => .error e
    | .ok acc2 => getURLsGo db rest acc2

/-- fetch.py getURLs, given the links scraped from the listing page and
the database (the network fetch of the listing itself is the
out-of-scope transport). -/
def getURLs (links : List String) (db : List ColdCase) :
    Except DBError (List (String × CaseRecord)) :=
  getURLsGo db links []

/-! ## fetch.py: downloadPDFs and pullAllData -/

/-- Outcome of one document GET: a response with its Content-Type
header, or a requests.RequestException (timeout, HTTP error, ...). -/
inductive FetchResult
  | ok (contentType : String)
  | netError
deriving DecidableEq, Repr

/-- fetch.py downloadPDFs (lines 128-172).  fileOnDisk models
os.path.exists on PDF_DIR/name; fetch models requests.get on the lead's
url.  A lead is kept in the returned mapping when its file already
exists, or when the GET succeeds and declares a PDF content type;
network errors and content-type mismatches skip the lead. -/
def downloadPDFs (cases : List (String × CaseRecord))
    (fileOnDisk : String → Bool) (fetch : String → FetchResult) :
    List (String × CaseRecord) :=
  match cases with
  | [] => []
  | (name, c) :: rest =>
    if fileOnDisk name then
      (name, c) :: downloadPDFs rest fileOnDisk fetch
    else
      match fetch c.url with
      | .netError => downloadPDFs rest fileOnDisk fetch
      | .ok ct =>
        if strHasSub ct "application/pdf" then
          (name, c) :: downloadPDFs rest fileOnDisk fetch
        else
          downloadPDFs rest fileOnDisk fetch

/-- fetch.py pullAllData (lines 174-184): the mapping handed to
write_pending, which fully rewrites the persisted pending queue with
exactly this mapping (pending.py write_pending). -/
def pullAllDataWritten (links : List String) (db : List ColdCase)
    (fileOnDisk : String → Bool) (fetch : String → FetchResult) :
    Except DBError (List (String × CaseRecord)) :=
  match getURLs links db with
  | .error e => .error e
  | .ok cases => .ok (downloadPDFs cases fileOnDisk fetch)

/-! ## parse.py: parseOne

The OCR engine and the regex matcher are external collaborators; a
RawExtraction packs the nine extract(...) results parseOne computes on
the recognized text, each the stripped first capture group or none when
the pattern did not match.  parseOne's control flow, normalization and
defaulting are embedded faithfully from there on. -/

structure RawExtraction where
  case_regex : Option String
  case_fallback : Option String
  victim : Option String
  age : Option String
  sex : Option String
  race : Option String
  date : Option String
  location : Option String
  synopsis : Option String
deriving DecidableEq, Repr

/-- The record dict parseOne builds and hands to upsert_cold_case:
sex, race, incident_date, location and status are always non-None
there; victim, age and synopsis may be None. -/
structure ParsedCase where
  case_number : String
  victim : Option String
  age : Option Int
  sex : String
  race : String
  incident_date : PyDate
  location : String
  synopsis : Option String
  status : String
deriving DecidableEq, Repr

/-- Result of parseOne: success carries the record that was upserted,
failure models return False (a logged, named reason), error models an
uncaught Python exception (strptime ValueError). -/
inductive ParseResult
  | success (p : ParsedCase)
  | failure
  | error
deriving DecidableEq, Repr

/-- Python truthiness of an optional string: None and "" are falsy. -/
def pyFalsy : Option String → Bool
  | none => true
  | some s => s == ""

/-- parse.py lines 104-108: en dash to hyphen, then space to hyphen. -/
def normalizeCaseNumber (raw : String) : String :=
  pyReplace (pyReplace raw "–" "-") " " "-"

/-- sex_map.get(sex_key, "N/A") with sex_map = Female→F, Male→M. -/
def sexMapGet : Option String → String
  | some "Female" => "F"
  | some "Male" => "M"
  | _ => "N/A"

/-- race_map.get(race_key, "Other") (parse.py lines 132-140). -/
def raceMapGet : Option String → String
  | some "White" => "White"
  | some "Black" => "Black"
  | some "Hispanic" => "Hispanic"
  | some "Asian" => "Asian"
  | some "Pacific Islander" => "Pacific Islander"
  | some "Native American" => "Native American"
  | some "Caucasian" => "White"
  | _ => "Other"

/-- sex_key = sex_raw.strip().title() if sex_raw else None. -/
def sexKeyOf (ext : RawExtraction) : Option String :=
  match ext.sex with
  | some s => if s == "" then none else some (pyTitle (pyStrip s))
  | none => none

/-- race_key = race_raw.strip().title() if race_raw else None. -/
def raceKeyOf (ext : RawExtraction) : Option String :=
  match ext.race with
  | some s => if s == "" then none else some (pyTitle (pyStrip s))
  | none => none

/-- age_norm: int(age_raw) when age_raw is truthy, None on a parse
failure or an absent value (the int() call models signless decimal
input, which is all a captured age line can carry). -/
def ageNormOf (ext : RawExtraction) : Option Int :=
  match ext.age with
  | some s =>
    if s == "" then none
    else
      match pyNat? s with
      | some n => some (Int.ofNat n)
      | none => none
  | none => none

/-- victim_norm = victim_raw.strip().title() if victim_raw else None. -/
def victimNormOf (ext : RawExtraction) : Option String :=
  match ext.victim with
  | some v => if v == "" then none else some (pyTitle (pyStrip v))
  | none => none

/-- synopsis_norm: whitespace runs collapsed and ends stripped, or
None when the synopsis block is absent. -/
def synopsisNormOf (ext : RawExtraction) : Option String :=
  match ext.synopsis with
  | some s => if s == "" then none else some (collapseWs s)
  | none => none

/-- incident_date_clean (parse.py line 155): spaces removed, hyphens
turned into slashes. -/
def dateCleaned (raw : String) : String :=
  pyReplace (pyReplace raw " " "") "-" "/"

/-- parse.py parseOne (lines 53-182) after OCR: the candidate case
number falls back from CASE_REGEX to CASE_FALLBACK_REGEX; a missing
case number, incident date or location returns failure before the
upsert; a date string the regex matched but strptime rejects raises
(error); otherwise the normalized record is produced for upsert. -/
def parseOne (ext : RawExtraction) (source_status : String) : ParseResult :=
  let case_number_raw :=
    if pyFalsy ext.case_regex then ext.case_fallback else ext.case_regex
  if pyFalsy case_number_raw then .failure
  else
    let case_number_norm := normalizeCaseNumber (case_number_raw.getD "")
    if pyFalsy ext.date then .failure
    else
      match pyStrptimeMDY (dateCleaned (ext.date.getD "")) with
      | none => .error
      | some d =>
        if pyFalsy ext.location then .failure
        else
          .success
            { case_number := case_number_norm
              victim := victimNormOf ext
              age := ageNormOf ext
              sex := sexMapGet (sexKeyOf ext)
              race := raceMapGet (raceKeyOf ext)
              incident_date := d
              location := pyStrip (ext.location.getD "")
              synopsis := synopsisNormOf ext
              status := source_status }

/-! ## parse.py: upsert_cold_case -/

/-- The INSERT values: a row built from the parsed dict (sex, race and
status are non-None in it, so they arrive as SQL non-NULL). -/
def toStored (p : ParsedCase) : ColdCase :=
  { case_number := p.case_number
    victim := p.victim
    age := p.age
    sex := some p.sex
    race := some p.race
    incident_date := p.incident_date
    location := p.location
    synopsis := p.synopsis
    status := some p.status }

/-- The ON CONFLICT DO UPDATE SET assignment (parse.py lines 40-44):
only the columns that are non-None in the incoming dict are updated;
case_number and the None columns keep their stored values. -/
def applyUpdate (e : ColdCase) (p : ParsedCase) : ColdCase :=
  { case_number := e.case_number
    victim := match p.victim with | some v => some v | none => e.victim
    age := match p.age with | some a => some a | none => e.age
    sex := some p.sex
    race := some p.race
    incident_date := p.incident_date
    location := p.location
    synopsis := match p.synopsis with | some s => some s | none => e.synopsis
    status := some p.status }

/-- parse.py upsert_cold_case (lines 37-51) against a table held as a
row list: insert when no row has the case_number, else update the (by
primary-key uniqueness single) conflicting row in place. -/
def upsert_cold_case : List ColdCase → ParsedCase → List ColdCase
  | [], p => [toStored p]
  | e :: es, p =>
    if e.case_number = p.case_number then applyUpdate e p :: es
    else e :: upsert_cold_case es p

/-! ## parse.py: parseAllPDFs -/

/-- What the file system and OCR hand parseOne for one lead: the PDF
file may be missing (parseOne returns False), the conversion/OCR call
may raise, or it yields text whose extraction results are given. -/
inductive LeadInput
  | missingFile
  | ocrError
  | text (ext : RawExtraction)

/-- parseOne including its file check and the OCR call (parse.py lines
53-60): a missing file is a logged failure, an OCR exception
propagates, otherwise the extraction pipeline runs. -/
def parseOneFull (li : LeadInput) (source_status : String) : ParseResult :=
  match li with
  | .missingFile => .failure
  | .ocrError => .error
  | .text ext => parseOne ext source_status

/-- The loop of parseAllPDFs (lines 190-193) over the session's
uncommitted store: none models an exception escaping the loop;
otherwise the final store and the processed keys (in queue order). -/
def processLeads (inp : String → CaseRecord → LeadInput) :
    List (String × CaseRecord) → List ColdCase →
    Option (List ColdCase × List String)
  | [], s => some (s, [])
  | (k, c) :: rest, s =>
    match parseOneFull (inp k c) c.source_status with
    | .error => none
    | .failure => processLeads inp rest s
    | .success p =>
      match processLeads inp rest (upsert_cold_case s p) with
      | none => none
      | some (s', ks) => some (s', k :: ks)

/-- pending.py remove_processed: pop every processed key. -/
def remove_processed (cases : List (String × CaseRecord))
    (ks : List String) : List (String × CaseRecord) :=
  cases.filter (fun kv => !(ks.contains kv.fst))

/-- End state of one parseAllPDFs run: the committed database, the
persisted pending-queue file, and whether an exception was re-raised. -/
structure RunResult where
  db : List ColdCase
  queueFile : List (String × CaseRecord)
  raised : Bool
deriving DecidableEq, Repr

/-- parse.py parseAllPDFs (lines 184-205): queueFile is what
load_pending read, db the committed table.  An exception in the loop or
a failing commit (commitOk = false) rolls the session back, re-raises
and leaves the queue file untouched; only after a successful commit are
the processed leads removed and the queue file rewritten. -/
def parseAllPDFs (queueFile : List (String × CaseRecord))
    (db : List ColdCase) (inp : String → CaseRecord → LeadInput)
    (commitOk : Bool) : RunResult :=
  match processLeads inp queueFile db with
  | none => ⟨db, queueFile, true⟩
  | some (s, ks) =>
    if commitOk then ⟨s, remove_processed queueFile ks, false⟩
    else ⟨db, queueFile, true⟩

/-! ## Concrete instances used in the theorems below -/

/-- A stored row for a 2014 case with victim John Smith. -/
def rec1 : ColdCase :=
  ⟨"2014-00001", some "John Smith", none, none, none, ⟨2014, 3, 14⟩,
   "Denver", none, some "cold"⟩

/-- A second stored row whose victim also contains "Smith" in 2014. -/
def rec2 : ColdCase :=
  ⟨"2014-00002", some "Jane Smith", none, none, none, ⟨2014, 5, 1⟩,
   "Denver", none, some "cold"⟩

/-- A listing page carrying one cold-case PDF link. -/
def c1Links : List String :=
  ["/files/assets/public/cold-cases/14-smith.pdf"]

/-- The lead getURLs builds for that link against an empty table. -/
def c1Lead : CaseRecord :=
  ⟨"https://www.denvergov.org/files/assets/public/cold-cases/14-smith.pdf",
   "14-smith.pdf", "cold"⟩

/-- A local cache with no file present. -/
def noFiles : String → Bool := fun _ => false

/-- A network on which every document GET raises. -/
def netDown : String → FetchResult := fun _ => FetchResult.netError

/-- A URL with neither "solved" nor "warrant" in its path. -/
def coldUrl : String :=
  "https://www.denvergov.org/files/assets/public/cold-cases/14-smith.pdf"

/-- Extraction results where no pattern matched at all. -/
def emptyExt : RawExtraction :=
  ⟨none, none, none, none, none, none, none, none, none⟩

/-- Extraction results with a case number and date but no location. -/
def noLocExt : RawExtraction :=
  ⟨some "2014-00231", none, none, none, none, none, some "03/14/2014",
   none, none⟩

/-- Extraction results on which every field was found. -/
def fullExt : RawExtraction :=
  ⟨some "2014-00231", none, some "john smith", some "25", some "male",
   some "caucasian", some "03/14/2014", some "Denver, CO",
   some "Some  text here"⟩

/-- The record parseOne produces from fullExt with source status
"warrant". -/
def fullParsed : ParsedCase :=
  ⟨"2014-00231", some "John Smith", some 25, "M", "White", ⟨2014, 3, 14⟩,
   "Denver, CO", some "Some text here", "warrant"⟩

/-- A stored row whose victim is known. -/
def smithStored : ColdCase :=
  ⟨"2014-00231", some "Smith", none, none, none, ⟨2014, 3, 14⟩,
   "Denver", none, some "cold"⟩

/-- An incoming record for the same case number with a null victim. -/
def nullVictimParsed : ParsedCase :=
  ⟨"2014-00231", none, none, "N/A", "Other", ⟨2014, 3, 14⟩,
   "Denver", none, "cold"⟩

/-- A run in which every queued lead's PDF file is missing. -/
def noLeadOracle : String → CaseRecord → LeadInput :=
  fun _ _ => LeadInput.missingFile

/-! ## Claim C2: year windowing of the change detector -/

/-- Claim C2, counterexample.  The claim says a leading token value in
10..69 is rejected as invalid and a 4-digit value passes through
unchanged; the code maps 14 to 2014 (every value below 70 gets 2000
added, the inner conditional's two arms are identical) and rejects
2014. -/
theorem C2_counterexample :
    windowYear 14 = some 2014 ∧ windowYear 14 ≠ none ∧
    windowYear 2014 = none := by
  decide

/-- Claim C2, amended: the change detector's year windowing maps every
value below 70 (including 10..69) to 2000 plus the value, maps 70..99
to 1900 plus the value, and rejects every value of 100 and above —
including 4-digit years — as record-not-found. -/
theorem C2_year_windowing (y : Nat) :
    (y < 70 → windowYear y = some (2000 + y)) ∧
    (70 ≤ y → y ≤ 99 → windowYear y = some (1900 + y)) ∧
    (100 ≤ y → windowYear y = none) := by
  refine ⟨fun h => ?_, fun h1 h2 => ?_, fun h => ?_⟩ <;>
    · unfold windowYear
      split_ifs <;> first | rfl | omega

/-- Witness for C2_year_windowing at the inputs 5, 85 and 2014. -/
theorem C2_year_windowing_witness :
    windowYear 5 = some 2005 ∧ windowYear 85 = some 1985 ∧
    windowYear 2014 = none :=
  ⟨(C2_year_windowing 5).1 (by omega),
   (C2_year_windowing 85).2.1 (by omega) (by omega),
   (C2_year_windowing 2014).2.2 (by omega)⟩

/-! ## Claim C6: case-number normalization -/

/-- Claim C6, counterexample.  The claim says the raw matched token
"2014 – 00231" normalizes to "2014-00231"; the code maps the en
dash and each of the two spaces to their own hyphen. -/
theorem C6_counterexample :
    normalizeCaseNumber "2014 – 00231" ≠ "2014-00231" := by
  decide

/-- Claim C6, amended: normalization rewrites every en dash and every
space in the raw token to a hyphen, one for one; the raw token
"2014 – 00231" therefore normalizes to "2014---00231", and the
single-separator raw tokens "2014–00231" and "2014 00231" (the
only shapes the case-number pattern can actually capture) normalize to
"2014-00231". -/
theorem C6_normalization :
    normalizeCaseNumber "2014 – 00231" = "2014---00231" ∧
    normalizeCaseNumber "2014–00231" = "2014-00231" ∧
    normalizeCaseNumber "2014 00231" = "2014-00231" := by
  decide

/-! ## Claim C3: when the crawler emits a lead -/

/-- Claim C3, counterexample.  coldUrl classifies as "cold" and the
detector reports an existing record with the different status "solved";
the claim then demands emission, but getURLs' decision emits nothing:
the status-changed re-trigger exists only in the "solved" and "warrant"
branches, the "cold" branch fires solely on absence. -/
theorem C3_counterexample :
    emitDecision coldUrl true "solved" = none ∧
    statusCategory coldUrl = "cold" ∧ ("solved" : String) ≠ "cold" := by
  decide

/-- Claim C3, amended: for a URL carrying at most one of the two status
markers (every listing URL, the marker being a path directory), a lead
is emitted exactly when the URL classifies as "solved" and the record
is absent or has a status other than "solved", or classifies as
"warrant" and the record is absent or has a status other than
"warrant", or classifies as "cold" and the record is absent; a "cold"
candidate with an existing record is never emitted, whatever its stored
status.  The emitted source_status is the URL's category. -/
theorem C3_emission (u : String) (ex : Bool) (st : String)
    (h : ¬(strHasSub u "solved" = true ∧ strHasSub u "warrant" = true)) :
    (emitDecision u ex st ≠ none ↔
      ((statusCategory u = "solved" ∧ (ex = false ∨ st ≠ "solved")) ∨
       (statusCategory u = "warrant" ∧ (ex = false ∨ st ≠ "warrant")) ∨
       (statusCategory u = "cold" ∧ ex = false))) ∧
    (emitDecision u ex st = none ∨
      emitDecision u ex st = some (statusCategory u)) := by
  by_cases hs : strHasSub u "solved" = true
  · by_cases hw : strHasSub u "warrant" = true
    · exact absurd ⟨hs, hw⟩ h
    · cases ex <;> by_cases hst : st = "solved" <;>
        simp_all [emitDecision, statusCategory, bne_iff_ne]
  · by_cases hw : strHasSub u "warrant" = true
    · cases ex <;> by_cases hst : st = "warrant" <;>
        simp_all [emitDecision, statusCategory, bne_iff_ne]
    · cases ex <;>
        simp_all [emitDecision, statusCategory]

/-- Witness for C3_emission: the cold-classified URL with no existing
record is emitted, and with an existing record of status "solved" the
instance of the amended disjunction is false. -/
theorem C3_emission_witness :
    emitDecision coldUrl false "N/A" ≠ none :=
  (C3_emission coldUrl false "N/A" (by decide)).1.mpr
    (Or.inr (Or.inr ⟨by decide, rfl⟩))

/-! ## Claim C1: failed fetches and the persisted queue -/

theorem downloadPDFs_keys_subset (fod : String → Bool)
    (fetch : String → FetchResult) :
    ∀ cases : List (String × CaseRecord),
      (downloadPDFs cases fod fetch).map Prod.fst ⊆ cases.map Prod.fst := by
  intro cases
  induction cases with
  | nil => simp [downloadPDFs]
  | cons hd tl ih =>
    obtain ⟨name, c⟩ := hd
    simp only [downloadPDFs]
    split
    · simp only [List.map_cons]
      exact List.cons_subset_cons name ih
    · split
      · exact ih.trans (List.subset_cons_self _ _)
      · split
        · simp only [List.map_cons]
          exact List.cons_subset_cons name ih
        · exact ih.trans (List.subset_cons_self _ _)

theorem downloadPDFs_drops_failed (fod : String → Bool)
    (fetch : String → FetchResult) :
    ∀ (cases : List (String × CaseRecord)) (name : String) (c : CaseRecord),
      (cases.map Prod.fst).Nodup → (name, c) ∈ cases →
      fod name = false → fetch c.url = FetchResult.netError →
      ¬ name ∈ (downloadPDFs cases fod fetch).map Prod.fst := by
  intro cases
  induction cases with
  | nil => intro name c _ hmem; cases hmem
  | cons hd tl ih =>
    obtain ⟨n0, c0⟩ := hd
    intro name c hnd hmem hfod hfetch
    have hnd' : (n0 :: tl.map Prod.fst).Nodup := by simpa using hnd
    have hnd0 : ¬ n0 ∈ tl.map Prod.fst := (List.nodup_cons.mp hnd').1
    have hndtl : (tl.map Prod.fst).Nodup := (List.nodup_cons.mp hnd').2
    rcases List.mem_cons.mp hmem with heq | htl
    · injection heq with h1 h2
      subst h1
      subst h2
      simp only [downloadPDFs, hfod, Bool.false_eq_true, if_false, hfetch]
      intro hin
      exact hnd0 (downloadPDFs_keys_subset fod fetch tl hin)
    · have hname_tl : name ∈ tl.map Prod.fst :=
        List.mem_map.mpr ⟨(name, c), htl, rfl⟩
      have hne : name ≠ n0 := fun h => hnd0 (h ▸ hname_tl)
      have ihres := ih name c hndtl htl hfod hfetch
      simp only [downloadPDFs]
      split
      · simp only [List.map_cons, List.mem_cons]
        rintro (h | h)
        · exact hne h
        · exact ihres h
      · split
        · exact ihres
        · split
          · simp only [List.map_cons, List.mem_cons]
            rintro (h | h)
            · exact hne h
            · exact ihres h
          · exact ihres

theorem mem_keys_dictInsert (k a : String) (v : CaseRecord) :
    ∀ l : List (String × CaseRecord),
      a ∈ (dictInsert l k v).map Prod.fst ↔
        a = k ∨ a ∈ l.map Prod.fst := by
  intro l
  induction l with
  | nil => simp [dictInsert]
  | cons hd tl ih =>
    obtain ⟨k', v'⟩ := hd
    by_cases h : k' = k
    · by_cases ha : a = k <;> simp [dictInsert, h, ha]
    · simp only [dictInsert, if_neg h, List.map_cons, List.mem_cons, ih]
      tauto

theorem dictInsert_keys_nodup (k : String) (v : CaseRecord) :
    ∀ l : List (String × CaseRecord),
      (l.map Prod.fst).Nodup → ((dictInsert l k v).map Prod.fst).Nodup := by
  intro l
  induction l with
  | nil => intro _; simp [dictInsert]
  | cons hd tl ih =>
    obtain ⟨k', v'⟩ := hd
    intro hnd
    have hnd' : (k' :: tl.map Prod.fst).Nodup := by simpa using hnd
    have hk' : ¬ k' ∈ tl.map Prod.fst := (List.nodup_cons.mp hnd').1
    have htl : (tl.map Prod.fst).Nodup := (List.nodup_cons.mp hnd').2
    by_cases h : k' = k
    · subst h
      simpa [dictInsert] using List.nodup_cons.mpr ⟨hk', htl⟩
    · simp only [dictInsert, if_neg h, List.map_cons]
      refine List.nodup_cons.mpr ⟨?_, ih htl⟩
      rw [mem_keys_dictInsert]
      rintro (hc | hc)
      · exact h hc
      · exact hk' hc

theorem processLink_ok_shape (db : List ColdCase)
    (acc : List (String × CaseRecord)) (href : String)
    (acc2 : List (String × CaseRecord))
    (h : processLink db acc href = .ok acc2) :
    acc2 = acc ∨ ∃ k v, acc2 = dictInsert acc k v := by
  simp only [processLink] at h
  split at h
  · split at h
    · cases h
    · split at h
      · cases h
        exact Or.inr ⟨_, _, rfl⟩
      · cases h
        exact Or.inl rfl
  · cases h
    exact Or.inl rfl

theorem getURLsGo_keys_nodup (db : List ColdCase) :
    ∀ (links : List String) (acc r : List (String × CaseRecord)),
      (acc.map Prod.fst).Nodup → getURLsGo db links acc = .ok r →
      (r.map Prod.fst).Nodup := by
  intro links
  induction links with
  | nil =>
    intro acc r hnd h
    cases h
    exact hnd
  | cons href rest ih =>
    intro acc r hnd h
    unfold getURLsGo at h
    split at h
    · cases h
    · rename_i acc2 heq
      rcases processLink_ok_shape db acc href acc2 heq with rfl | ⟨k, v, rfl⟩
      · exact ih _ r hnd h
      · exact ih _ r (dictInsert_keys_nodup _ _ acc hnd) h

theorem getURLs_keys_nodup (links : List String) (db : List ColdCase)
    (cases : List (String × CaseRecord)) (h : getURLs links db = .ok cases) :
    (cases.map Prod.fst).Nodup :=
  getURLsGo_keys_nodup db links [] cases (by simp) h

/-- Claim C1, counterexample.  One cold-case link against an empty
record store yields one queued lead; its download raises a network
error, and pullAllData then hands write_pending the empty mapping — the
failed lead is **not** in the persisted pending queue. -/
theorem C1_counterexample :
    getURLs c1Links [] = Except.ok [("14-smith.pdf", c1Lead)] ∧
    pullAllDataWritten c1Links [] noFiles netDown = Except.ok [] := by
  decide

/-- Claim C1, amended: a lead of the crawl whose PDF is not already on
disk and whose download raises a network error is absent from the
mapping pullAllData hands to write_pending; only leads whose file
already existed or whose download succeeded with a PDF content type are
written back.  (The dropped lead is re-discovered by getURLs on a later
run for as long as no matching record is stored.) -/
theorem C1_failed_fetch_dropped (links : List String) (db : List ColdCase)
    (fod : String → Bool) (fetch : String → FetchResult)
    (name : String) (c : CaseRecord) (cases : List (String × CaseRecord))
    (hget : getURLs links db = .ok cases) (hmem : (name, c) ∈ cases)
    (hfod : fod name = false) (hfetch : fetch c.url = FetchResult.netError) :
    pullAllDataWritten links db fod fetch =
      .ok (downloadPDFs cases fod fetch) ∧
    ¬ name ∈ (downloadPDFs cases fod fetch).map Prod.fst := by
  constructor
  · simp only [pullAllDataWritten, hget]
  · exact downloadPDFs_drops_failed fod fetch cases name c
      (getURLs_keys_nodup links db cases hget) hmem hfod hfetch

/-- Witness for C1_failed_fetch_dropped at the concrete crawl of
C1_counterexample. -/
theorem C1_failed_fetch_dropped_witness :
    pullAllDataWritten c1Links [] noFiles netDown =
      .ok (downloadPDFs [("14-smith.pdf", c1Lead)] noFiles netDown) ∧
    ¬ "14-smith.pdf" ∈
      (downloadPDFs [("14-smith.pdf", c1Lead)] noFiles netDown).map Prod.fst :=
  C1_failed_fetch_dropped c1Links [] noFiles netDown "14-smith.pdf" c1Lead
    [("14-smith.pdf", c1Lead)] (by decide) (by decide) rfl rfl

/-! ## Claims C4 and C10: extraction failures and normalization -/

theorem parseOne_missing_case_or_date (ext : RawExtraction) (st : String)
    (h : ((pyFalsy ext.case_regex && pyFalsy ext.case_fallback)
        || pyFalsy ext.date) = true) :
    parseOne ext st = ParseResult.failure := by
  rcases Bool.or_eq_true _ _ |>.mp h with hc | hd
  · rcases Bool.and_eq_true _ _ |>.mp hc with ⟨h1, h2⟩
    simp [parseOne, h1, h2]
  · simp [parseOne, hd]

theorem parseOne_success_inv (ext : RawExtraction) (st : String)
    (p : ParsedCase) (h : parseOne ext st = ParseResult.success p) :
    pyFalsy (if pyFalsy ext.case_regex then ext.case_fallback
      else ext.case_regex) = false ∧
    pyFalsy ext.date = false ∧ pyFalsy ext.location = false ∧
    p.sex = sexMapGet (sexKeyOf ext) ∧ p.race = raceMapGet (raceKeyOf ext) ∧
    p.victim = victimNormOf ext ∧ p.age = ageNormOf ext ∧
    p.location = pyStrip (ext.location.getD "") ∧ p.status = st := by
  cases hcn : pyFalsy (if pyFalsy ext.case_regex then ext.case_fallback
      else ext.case_regex) <;>
    cases hd : pyFalsy ext.date <;>
      cases hl : pyFalsy ext.location <;>
        simp only [parseOne, hcn, hd, hl, Bool.false_eq_true, if_false,
          if_true, ite_self] at h
  · cases hsp : pyStrptimeMDY (dateCleaned (ext.date.getD "")) <;>
      simp [hsp] at h
    obtain rfl := h.symm
    simp
  · cases hsp : pyStrptimeMDY (dateCleaned (ext.date.getD "")) <;>
      simp [hsp] at h
  all_goals simp at h

theorem caseFallbackChain (a b : Option String)
    (h : pyFalsy (if pyFalsy a then b else a) = false) :
    (pyFalsy a && pyFalsy b) = false := by
  cases ha : pyFalsy a <;> simp_all

theorem sexMapGet_mem (k : Option String) :
    sexMapGet k ∈ (["M", "F", "N/A"] : List String) := by
  unfold sexMapGet
  split <;> decide

theorem raceMapGet_mem (k : Option String) :
    raceMapGet k ∈ (["White", "Black", "Hispanic", "Asian",
      "Pacific Islander", "Native American", "Other"] : List String) := by
  unfold raceMapGet
  split <;> decide

theorem sexMapGet_default (k : Option String)
    (h1 : k ≠ some "Female") (h2 : k ≠ some "Male") :
    sexMapGet k = "N/A" := by
  unfold sexMapGet
  split <;> simp_all

theorem raceMapGet_default (k : Option String)
    (h1 : k ≠ some "White") (h2 : k ≠ some "Black")
    (h3 : k ≠ some "Hispanic") (h4 : k ≠ some "Asian")
    (h5 : k ≠ some "Pacific Islander") (h6 : k ≠ some "Native American")
    (h7 : k ≠ some "Caucasian") :
    raceMapGet k = "Other" := by
  unfold raceMapGet
  split <;> simp_all

/-- Claim C4, confirmed: a missing case number (both patterns) or a
missing incident date makes parseOne return the named failure before
the upsert; a missing location never lets parseOne reach the success
state (the only state that upserts a record); and every successful
parse had all three required fields present.  The record handed to the
upsert is exactly the success payload, so no partial record is ever
written on a failure. -/
theorem C4_required_fields (ext : RawExtraction) (st : String) :
    (((pyFalsy ext.case_regex && pyFalsy ext.case_fallback)
        || pyFalsy ext.date) = true →
      parseOne ext st = ParseResult.failure) ∧
    (pyFalsy ext.location = true →
      ∀ p, parseOne ext st ≠ ParseResult.success p) ∧
    (∀ p, parseOne ext st = ParseResult.success p →
      (pyFalsy ext.case_regex && pyFalsy ext.case_fallback) = false ∧
      pyFalsy ext.date = false ∧ pyFalsy ext.location = false) := by
  refine ⟨parseOne_missing_case_or_date ext st, ?_, ?_⟩
  · intro hloc p h
    have hinv := parseOne_success_inv ext st p h
    rw [hinv.2.2.1] at hloc
    cases hloc
  · intro p h
    have hinv := parseOne_success_inv ext st p h
    exact ⟨caseFallbackChain _ _ hinv.1, hinv.2.1, hinv.2.2.1⟩

/-- Witness for C4_required_fields on a document with nothing
extracted, one with no location, and one fully extracted. -/
theorem C4_required_fields_witness :
    parseOne emptyExt "cold" = ParseResult.failure ∧
    parseOne noLocExt "cold" ≠ ParseResult.success fullParsed ∧
    ((pyFalsy fullExt.case_regex && pyFalsy fullExt.case_fallback) = false ∧
      pyFalsy fullExt.date = false ∧ pyFalsy fullExt.location = false) :=
  ⟨(C4_required_fields emptyExt "cold").1 (by decide),
   (C4_required_fields noLocExt "cold").2.1 rfl fullParsed,
   (C4_required_fields fullExt "warrant").2.2 fullParsed (by decide)⟩

/-- Claim C10, confirmed: every successfully parsed record carries a
sex in the set M, F, N/A and a race in the seven canonical categories
or Other; both fields are exactly the fixed-table lookups of the
title-cased raw values, and an unmapped or absent raw value always
lands on the default (N/A, Other), never on the raw string.  (The
warning on an unmapped value is a print call, outside the embedded
state.) -/
theorem C10_normalized_categories (ext : RawExtraction) (st : String)
    (p : ParsedCase) (h : parseOne ext st = ParseResult.success p) :
    p.sex ∈ (["M", "F", "N/A"] : List String) ∧
    p.race ∈ (["White", "Black", "Hispanic", "Asian",
      "Pacific Islander", "Native American", "Other"] : List String) ∧
    p.sex = sexMapGet (sexKeyOf ext) ∧ p.race = raceMapGet (raceKeyOf ext) ∧
    (sexKeyOf ext ≠ some "Female" → sexKeyOf ext ≠ some "Male" →
      p.sex = "N/A") ∧
    (raceKeyOf ext ≠ some "White" → raceKeyOf ext ≠ some "Black" →
      raceKeyOf ext ≠ some "Hispanic" → raceKeyOf ext ≠ some "Asian" →
      raceKeyOf ext ≠ some "Pacific Islander" →
      raceKeyOf ext ≠ some "Native American" →
      raceKeyOf ext ≠ some "Caucasian" → p.race = "Other") := by
  have hinv := parseOne_success_inv ext st p h
  have hsex := hinv.2.2.2.1
  have hrace := hinv.2.2.2.2.1
  refine ⟨?_, ?_, hsex, hrace, ?_, ?_⟩
  · rw [hsex]; exact sexMapGet_mem _
  · rw [hrace]; exact raceMapGet_mem _
  · intro h1 h2
    rw [hsex]; exact sexMapGet_default _ h1 h2
  · intro h1 h2 h3 h4 h5 h6 h7
    rw [hrace]; exact raceMapGet_default _ h1 h2 h3 h4 h5 h6 h7

/-- Witness for C10_normalized_categories on the fully extracted
document. -/
theorem C10_normalized_categories_witness :
    fullParsed.sex ∈ (["M", "F", "N/A"] : List String) ∧
    fullParsed.race ∈ (["White", "Black", "Hispanic", "Asian",
      "Pacific Islander", "Native American", "Other"] : List String) :=
  have h := C10_normalized_categories fullExt "warrant" fullParsed (by decide)
  ⟨h.1, h.2.1⟩

/-! ## Claim C5: the change detector's return cases -/

/-- Claim C5, counterexample.  With two stored 2014 records whose
victims both contain "Smith", the lookup for "14-Smith.pdf" does not
return (False, "N/A"): scalar_one_or_none raises MultipleResultsFound,
which propagates to the caller. -/
theorem C5_counterexample :
    findRecord "14-Smith.pdf" [rec1, rec2] =
      Except.error DBError.multipleResults := by
  decide

/-- Claim C5, amended: findRecord returns (False, "N/A") when the year
token is unparseable or outside the windowing, and when no record
matches the surname-substring and derived-year query; it returns
(True, status) when exactly one record matches and its stored status is
non-null; but when more than one record matches it raises
(MultipleResultsFound) to the caller instead of returning. -/
theorem C5_change_detector (pdfName : String) (db : List ColdCase) :
    (pyNat? ((yearName pdfName).headD "") = none →
      findRecord pdfName db = .ok (false, "N/A")) ∧
    (∀ y, pyNat? ((yearName pdfName).headD "") = some y →
      windowYear y = none → findRecord pdfName db = .ok (false, "N/A")) ∧
    (∀ y year ln rest, pyNat? ((yearName pdfName).headD "") = some y →
      windowYear y = some year → (yearName pdfName).drop 1 = ln :: rest →
      (db.filter (matchesQuery (pyReplace ln ".pdf" "") year) = [] →
        findRecord pdfName db = .ok (false, "N/A")) ∧
      (∀ c s, db.filter (matchesQuery (pyReplace ln ".pdf" "") year) = [c] →
        c.status = some s → findRecord pdfName db = .ok (true, s)) ∧
      (∀ c1 c2 cs,
        db.filter (matchesQuery (pyReplace ln ".pdf" "") year) =
          c1 :: c2 :: cs →
        findRecord pdfName db = .error DBError.multipleResults)) := by
  refine ⟨?_, ?_, ?_⟩
  · intro h
    simp only [findRecord, h]
  · intro y hy hw
    simp only [findRecord, hy, hw]
  · intro y year ln rest hy hw hdrop
    refine ⟨?_, ?_, ?_⟩
    · intro hfil
      simp only [findRecord, hy, hw, hdrop, hfil]
    · intro c s hfil hst
      simp only [findRecord, hy, hw, hdrop, hfil, hst]
    · intro c1 c2 cs hfil
      simp only [findRecord, hy, hw, hdrop, hfil]

/-- Witness for C5_change_detector: the single-match case on the
one-row store. -/
theorem C5_change_detector_witness :
    findRecord "14-Smith.pdf" [rec1] = Except.ok (true, "cold") :=
  ((C5_change_detector "14-Smith.pdf" [rec1]).2.2 14 2014 "Smith.pdf" []
    (by decide) (by decide) (by decide)).2.1 rec1 "cold" (by decide) rfl

/-! ## Claims C7 and C8: the upsert -/

theorem applyUpdate_case_number (e : ColdCase) (p : ParsedCase) :
    (applyUpdate e p).case_number = e.case_number := rfl

theorem toStored_case_number (p : ParsedCase) :
    (toStored p).case_number = p.case_number := rfl

theorem applyUpdate_applyUpdate (e : ColdCase) (p : ParsedCase) :
    applyUpdate (applyUpdate e p) p = applyUpdate e p := by
  cases hv : p.victim <;> cases ha : p.age <;> cases hs : p.synopsis <;>
    simp [applyUpdate, hv, ha, hs]

theorem applyUpdate_toStored (p : ParsedCase) :
    applyUpdate (toStored p) p = toStored p := by
  cases hv : p.victim <;> cases ha : p.age <;> cases hs : p.synopsis <;>
    simp [applyUpdate, toStored, hv, ha, hs]

theorem mem_upsert_of_matching (p : ParsedCase) :
    ∀ (store : List ColdCase) (e : ColdCase),
      (store.map ColdCase.case_number).Nodup → e ∈ store →
      e.case_number = p.case_number →
      applyUpdate e p ∈ upsert_cold_case store p := by
  intro store
  induction store with
  | nil => intro e _ hmem; cases hmem
  | cons e0 es ih =>
    intro e hnd hmem hkey
    have hnd' : (e0.case_number :: es.map ColdCase.case_number).Nodup := by
      simpa using hnd
    have h0 : ¬ e0.case_number ∈ es.map ColdCase.case_number :=
      (List.nodup_cons.mp hnd').1
    have hes : (es.map ColdCase.case_number).Nodup :=
      (List.nodup_cons.mp hnd').2
    rcases List.mem_cons.mp hmem with rfl | htl
    · simp [upsert_cold_case, hkey]
    · have hne : e0.case_number ≠ p.case_number := by
        intro hc
        exact h0 (hc ▸ hkey ▸ List.mem_map.mpr ⟨e, htl, rfl⟩)
      simp only [upsert_cold_case, if_neg hne]
      exact List.mem_cons.mpr (Or.inr (ih e hes htl hkey))

/-- Claim C7, confirmed: upserting over a store whose primary keys are
unique (the database invariant) updates the conflicting row: every
field that is null in the incoming record keeps its stored value (a
null victim, age or synopsis never overwrites), and every non-null
incoming field lands in the row.  The other always-populated columns of
the parsed record (sex, race, incident_date, location, status) are
non-null by construction and are updated. -/
theorem C7_null_preserving_upsert (store : List ColdCase) (p : ParsedCase)
    (e : ColdCase) (hnd : (store.map ColdCase.case_number).Nodup)
    (hmem : e ∈ store) (hkey : e.case_number = p.case_number) :
    applyUpdate e p ∈ upsert_cold_case store p ∧
    (p.victim = none → (applyUpdate e p).victim = e.victim) ∧
    (p.age = none → (applyUpdate e p).age = e.age) ∧
    (p.synopsis = none → (applyUpdate e p).synopsis = e.synopsis) ∧
    (∀ v, p.victim = some v → (applyUpdate e p).victim = some v) ∧
    (∀ a, p.age = some a → (applyUpdate e p).age = some a) ∧
    (∀ s, p.synopsis = some s → (applyUpdate e p).synopsis = some s) := by
  refine ⟨mem_upsert_of_matching p store e hnd hmem hkey,
    ?_, ?_, ?_, ?_, ?_, ?_⟩
  all_goals first
    | (intro h; simp [applyUpdate, h])
    | (intro v h; simp [applyUpdate, h])

/-- Witness for C7_null_preserving_upsert: upserting a null victim over
the stored "Smith" leaves "Smith" intact. -/
theorem C7_null_preserving_upsert_witness :
    applyUpdate smithStored nullVictimParsed ∈
      upsert_cold_case [smithStored] nullVictimParsed ∧
    (applyUpdate smithStored nullVictimParsed).victim = some "Smith" :=
  have h := C7_null_preserving_upsert [smithStored] nullVictimParsed
    smithStored (by decide) (by decide) rfl
  ⟨h.1, (h.2.1 rfl).trans rfl⟩

/-- Claim C8, confirmed: upsert_cold_case is idempotent — applying the
same parsed record twice yields the same stored table as applying it
once, for every starting table. -/
theorem C8_upsert_idempotent (store : List ColdCase) (p : ParsedCase) :
    upsert_cold_case (upsert_cold_case store p) p =
      upsert_cold_case store p := by
  induction store with
  | nil =>
    simp [upsert_cold_case, toStored_case_number, applyUpdate_toStored]
  | cons e es ih =>
    by_cases h : e.case_number = p.case_number
    · simp [upsert_cold_case, h, applyUpdate_case_number,
        applyUpdate_applyUpdate]
    · simp [upsert_cold_case, h, ih]

/-! ## Claim C9: commit gates the queue rewrite -/

/-- Claim C9, confirmed: if an exception escapes the parse loop or the
commit fails, parseAllPDFs re-raises, the committed table is unchanged
(rollback) and the persisted queue file is exactly what load_pending
read; the queue file is rewritten — with the successfully parsed leads
removed — only on the path where the commit succeeded. -/
theorem C9_commit_gates_queue_write (q : List (String × CaseRecord))
    (db : List ColdCase) (inp : String → CaseRecord → LeadInput)
    (co : Bool) :
    (co = false → (parseAllPDFs q db inp co).raised = true) ∧
    ((parseAllPDFs q db inp co).raised = true →
      (parseAllPDFs q db inp co).queueFile = q ∧
      (parseAllPDFs q db inp co).db = db) ∧
    (∀ s ks, processLeads inp q db = some (s, ks) → co = true →
      parseAllPDFs q db inp co =
        ⟨s, remove_processed q ks, false⟩) := by
  cases hp : processLeads inp q db with
  | none =>
    refine ⟨fun _ => ?_, fun _ => ⟨?_, ?_⟩, fun s ks hs => ?_⟩ <;>
      simp [parseAllPDFs, hp] at *
  | some pair =>
    obtain ⟨s0, ks0⟩ := pair
    cases co <;>
      refine ⟨fun hco => ?_, fun hr => ?_, fun s ks hs hc => ?_⟩ <;>
        simp_all [parseAllPDFs, hp]

/-- Witness for C9_commit_gates_queue_write on an empty run: a failing
commit re-raises, a successful one rewrites the queue. -/
theorem C9_commit_gates_queue_write_witness :
    (parseAllPDFs [] [] noLeadOracle false).raised = true ∧
    parseAllPDFs [] [] noLeadOracle true = ⟨[], [], false⟩ :=
  ⟨(C9_commit_gates_queue_write [] [] noLeadOracle false).1 rfl,
   (C9_commit_gates_queue_write [] [] noLeadOracle true).2.2 [] [] rfl rfl⟩

end ColdCaseData
